import Mathlib

/-!
Verification of the keyboard event types library (`gluten-keyboard`).

The source under `src/src/lib.rs` defines the event model (`KeyState`,
`KeyboardEvent`, `CompositionState`, `CompositionEvent`) and the pure
function `Key::legacy_keycode`.  The closed vocabularies `Key`, `Code`,
`Location`, the `Modifiers` bit-set and the `ShortcutMatcher` live in
modules (`key.rs`, `code.rs`, `location.rs`, `modifiers.rs`,
`shortcuts.rs`) that are not part of the available sources; where a claim
depends on them they are modelled from the specification, and each such
definition is marked `Modelled from the spec:` in its doc comment.
-/

/-- Embeds `KeyState` from `src/src/lib.rs`: the key is either pressed
(`Down`) or released (`Up`). -/
inductive KeyState where
  | Down
  | Up
deriving DecidableEq, Repr

/-- Embeds the `Key` vocabulary as used by `legacy_keycode` in
`src/src/lib.rs`: the seventeen named variants matched there, the
payload-carrying `Character` variant, plus the remaining closed
vocabulary.  Modelled from the spec: `key.rs` is absent from the
sources; the spec describes `Key` as a closed set of payload-free named
tags (function keys, `Meta`, navigation keys, ...) plus `Character`; the
named tags not matched by `legacy_keycode` are represented here by
`Meta` and by the generic `other` tag carrying the variant's name. -/
inductive Key where
  | Backspace
  | Tab
  | Enter
  | Shift
  | Control
  | Alt
  | CapsLock
  | Escape
  | PageUp
  | PageDown
  | End
  | Home
  | ArrowLeft
  | ArrowUp
  | ArrowRight
  | ArrowDown
  | Delete
  | Meta
  | Character (text : String)
  | other (name : String)
deriving DecidableEq, Repr

/-- Embeds the `Code` vocabulary (physical key positions).  Modelled
from the spec: `code.rs` is absent from the sources; the spec treats
`Code` as a closed vocabulary of payload-free tags, disjoint from `Key`,
represented here by one sample tag and a generic named tag. -/
inductive Code where
  | KeyS
  | otherCode (name : String)
deriving DecidableEq, Repr

/-- Embeds the `Location` vocabulary.  Modelled from the spec:
`location.rs` is absent from the sources; the spec enumerates exactly
Standard, Left, Right and Numpad. -/
inductive Location where
  | Standard
  | Left
  | Right
  | Numpad
deriving DecidableEq, Repr

/-- Embeds the `Modifiers` bit-set.  Modelled from the spec:
`modifiers.rs` is absent from the sources; the spec describes a
fixed-width bit-set over the named modifier keys (Shift, Control, Alt,
Meta) where `union` is bitwise or, `contains a b` holds iff every bit
set in `b` is set in `a`, equality is bitwise, and the empty set is the
default value. -/
structure Modifiers where
  shift : Bool
  control : Bool
  alt : Bool
  meta : Bool
deriving DecidableEq, Repr

/-- Modelled from the spec: bitwise union of two modifier sets. -/
def Modifiers.union (a b : Modifiers) : Modifiers :=
  ⟨a.shift || b.shift, a.control || b.control, a.alt || b.alt, a.meta || b.meta⟩

/-- Modelled from the spec: `contains a b` is true iff every bit set in
`b` is also set in `a`. -/
def Modifiers.contains (a b : Modifiers) : Bool :=
  (!b.shift || a.shift) && (!b.control || a.control) &&
    (!b.alt || a.alt) && (!b.meta || a.meta)

/-- Modelled from the spec: the empty modifier set, the default value. -/
def Modifiers.empty : Modifiers :=
  ⟨false, false, false, false⟩

/-- Embeds the `KeyboardEvent` struct from `src/src/lib.rs` (lines
42-58): a plain record of public fields with no smart constructor and no
stated invariant. -/
structure KeyboardEvent where
  state : KeyState
  key : Key
  code : Code
  location : Location
  modifiers : Modifiers
  «repeat» : Bool
  is_composing : Bool
deriving DecidableEq, Repr

/-- Embeds `CompositionState` from `src/src/lib.rs`. -/
inductive CompositionState where
  | Start
  | Update
  | End
deriving DecidableEq, Repr

/-- Embeds `CompositionEvent` from `src/src/lib.rs`. -/
structure CompositionEvent where
  state : CompositionState
  data : String
deriving DecidableEq, Repr

/-- Embeds the inner character table of `Key::legacy_keycode`
(`src/src/lib.rs` lines 118-136): the `match` on the single character of
a length-one `Character` string.  Rust's `to_ascii_uppercase` on a
character in `'a'...'z'` subtracts 32 from its code. -/
def char_keycode (x : Char) : Nat :=
  if x = ' ' then 32
  else if '0' ≤ x ∧ x ≤ '9' then x.toNat
  else if 'a' ≤ x ∧ x ≤ 'z' then x.toNat - 32
  else if 'A' ≤ x ∧ x ≤ 'Z' then x.toNat
  else if x = ';' ∨ x = ':' then 186
  else if x = '=' ∨ x = '+' then 187
  else if x = ',' ∨ x = '<' then 188
  else if x = '-' ∨ x = '_' then 189
  else if x = '.' ∨ x = '>' then 190
  else if x = '/' ∨ x = '?' then 191
  else if x = Char.ofNat 96 ∨ x = '~' then 192
  else if x = '[' ∨ x = Char.ofNat 123 then 219
  else if x = '\\' ∨ x = '|' then 220
  else if x = ']' ∨ x = Char.ofNat 125 then 221
  else if x = Char.ofNat 39 ∨ x = '\"' then 222
  else 0

/-- The set of single characters matched by the inner table of
`Key::legacy_keycode` (`src/src/lib.rs` lines 119-134): space, digits,
lower- and upper-case ASCII letters, and the listed punctuation pairs.
Enumerated from the source's match arms. -/
def in_fixed_table (x : Char) : Bool :=
  x == ' ' || ('0' ≤ x && x ≤ '9') || ('a' ≤ x && x ≤ 'z') ||
    ('A' ≤ x && x ≤ 'Z') ||
    x == ';' || x == ':' || x == '=' || x == '+' || x == ',' || x == '<' ||
    x == '-' || x == '_' || x == '.' || x == '>' || x == '/' || x == '?' ||
    x == Char.ofNat 96 || x == '~' || x == '[' || x == Char.ofNat 123 ||
    x == '\\' || x == '|' || x == ']' || x == Char.ofNat 125 ||
    x == Char.ofNat 39 || x == '\"'

/-- Embeds `Key::legacy_keycode` from `src/src/lib.rs` (lines 98-139).
The guard `c.len() == 1` in the source measures the UTF-8 byte length of
the string; when it holds, `c.chars().next().unwrap()` takes the first
character (the empty-list arm is unreachable and mirrors the source's
fall-through to 0). -/
def legacy_keycode : Key → Nat
  | Key.Backspace => 8
  | Key.Tab => 9
  | Key.Enter => 13
  | Key.Shift => 16
  | Key.Control => 17
  | Key.Alt => 18
  | Key.CapsLock => 20
  | Key.Escape => 27
  | Key.PageUp => 33
  | Key.PageDown => 34
  | Key.End => 35
  | Key.Home => 36
  | Key.ArrowLeft => 37
  | Key.ArrowUp => 38
  | Key.ArrowRight => 39
  | Key.ArrowDown => 40
  | Key.Delete => 46
  | Key.Character c =>
      if c.utf8ByteSize = 1 then
        match c.data with
        | x :: _ => char_keycode x
        | [] => 0
      else 0
  | _ => 0

/-- Modelled from the spec: case-insensitive string comparison, used for
`Character` shortcut keys: the two texts agree after lower-casing each
character. -/
def lower_eq (s t : String) : Bool :=
  s.data.map Char.toLower == t.data.map Char.toLower

/-- Modelled from the spec: `shortcuts.rs` is absent from the sources.
Key comparison for shortcut matching: `Character` keys are compared
case-insensitively against the character, every other key by structural
equality. -/
def keys_match : Key → Key → Bool
  | Key.Character s, Key.Character t => lower_eq s t
  | a, b => a == b

/-- Modelled from the spec: `shortcuts.rs` is absent from the sources.
`is_shortcut_match` returns true iff the event's state is `Down`, the
event's key equals the required key (case-insensitively for `Character`
keys), and the event's modifiers equal the required modifier set exactly
(the spec fixes exact equality against the relevant bits). -/
def is_shortcut_match (event : KeyboardEvent) (required_key : Key)
    (required_modifiers : Modifiers) : Bool :=
  event.state == KeyState.Down && keys_match event.key required_key &&
    event.modifiers == required_modifiers

/-- Propositional form of the key comparison used for shortcuts:
`Character` keys match when their lower-cased texts agree, all other
keys match when equal. -/
def KeyMatch : Key → Key → Prop
  | Key.Character s, Key.Character t => s.data.map Char.toLower = t.data.map Char.toLower
  | a, b => a = b

/-- The modifier set holding exactly Control. -/
def ctrlOnly : Modifiers :=
  ⟨false, true, false, false⟩

/-- The modifier set holding exactly Control and Shift. -/
def ctrlShift : Modifiers :=
  ⟨true, true, false, false⟩

/-- A `Down` event for `Character "s"` reported with Control held. -/
def sDownCtrl : KeyboardEvent :=
  ⟨KeyState.Down, Key.Character "s", Code.KeyS, Location.Standard,
    ctrlOnly, false, false⟩

/-- An event with `state = Up` and `repeat = true`: nothing in the
`KeyboardEvent` record prevents its construction. -/
def upRepeatEvent : KeyboardEvent :=
  ⟨KeyState.Up, Key.Shift, Code.otherCode "ShiftLeft", Location.Left,
    Modifiers.empty, true, false⟩

/-- The boolean key comparison used by the shortcut matcher agrees with
its propositional characterization. -/
theorem keys_match_iff (a b : Key) : keys_match a b = true ↔ KeyMatch a b := by
  cases a <;> cases b <;> simp [keys_match, KeyMatch, lower_eq]

/-- C1: `is_shortcut_match event rk rm` returns true iff the event's
state is `Down`, the event's key equals `rk` (with `Character` keys
compared case-insensitively), and the event's modifiers equal `rm`
exactly; in particular a `Down` event for `Character "s"` with modifiers
`{Control}` matches required modifiers `{Control}` but not
`{Control, Shift}`. -/
theorem c1_is_shortcut_match_iff :
    (∀ (e : KeyboardEvent) (rk : Key) (rm : Modifiers),
        is_shortcut_match e rk rm = true ↔
          (e.state = KeyState.Down ∧ KeyMatch e.key rk ∧ e.modifiers = rm)) ∧
      is_shortcut_match sDownCtrl (Key.Character "s") ctrlOnly = true ∧
      is_shortcut_match sDownCtrl (Key.Character "s") ctrlShift = false := by
  refine ⟨?_, by decide, by decide⟩
  intro e rk rm
  simp [is_shortcut_match, Bool.and_eq_true, keys_match_iff, and_assoc]

/-- C2 counterexample: the claim that every `KeyboardEvent` with
`repeat = true` has `state = Down` is false: `upRepeatEvent` is a
constructible `KeyboardEvent` with `state = Up` and `repeat = true`
(the record enforces no invariant). -/
theorem c2_counterexample :
    ¬ (∀ e : KeyboardEvent, e.«repeat» = true → e.state = KeyState.Down) :=
  fun h => KeyState.noConfusion (h upRepeatEvent rfl)

/-- C2 amended: the `KeyboardEvent` type enforces no relation between
`state` and `repeat`: every combination of the two values is realized by
some constructible event.  The `repeat`-implies-`Down` invariant is a
caller contract, not a construction-time invariant of the type. -/
theorem c2_no_construction_invariant :
    ∀ (s : KeyState) (r : Bool),
      ∃ e : KeyboardEvent, e.state = s ∧ e.«repeat» = r :=
  fun s r =>
    ⟨⟨s, Key.Shift, Code.KeyS, Location.Standard, Modifiers.empty, r, false⟩,
      rfl, rfl⟩

/-- C3: every named non-printable key matched by `legacy_keycode` maps
to its fixed historical constant. -/
theorem c3_named_key_codes :
    legacy_keycode Key.Backspace = 8 ∧ legacy_keycode Key.Tab = 9 ∧
      legacy_keycode Key.Enter = 13 ∧ legacy_keycode Key.Shift = 16 ∧
      legacy_keycode Key.Control = 17 ∧ legacy_keycode Key.Alt = 18 ∧
      legacy_keycode Key.CapsLock = 20 ∧ legacy_keycode Key.Escape = 27 ∧
      legacy_keycode Key.PageUp = 33 ∧ legacy_keycode Key.PageDown = 34 ∧
      legacy_keycode Key.End = 35 ∧ legacy_keycode Key.Home = 36 ∧
      legacy_keycode Key.ArrowLeft = 37 ∧ legacy_keycode Key.ArrowUp = 38 ∧
      legacy_keycode Key.ArrowRight = 39 ∧ legacy_keycode Key.ArrowDown = 40 ∧
      legacy_keycode Key.Delete = 46 := by
  decide

/-- C4: for every ASCII letter, `legacy_keycode` on the corresponding
one-character `Character` key returns the uppercase ASCII value
regardless of the input's case: the lowercase letter `97 + n` and the
uppercase letter `65 + n` both map to `65 + n`. -/
theorem c4_letters_case_insensitive :
    ∀ n : Fin 26,
      legacy_keycode (Key.Character (String.singleton (Char.ofNat (97 + n.val))))
          = 65 + n.val ∧
        legacy_keycode (Key.Character (String.singleton (Char.ofNat (65 + n.val))))
          = 65 + n.val := by
  decide

/-- C5: every decimal digit character maps to its ASCII value
(`48 + n` for digit `n`), and the space character maps to 32. -/
theorem c5_digits_and_space :
    (∀ n : Fin 10,
        legacy_keycode (Key.Character (String.singleton (Char.ofNat (48 + n.val))))
          = 48 + n.val) ∧
      legacy_keycode (Key.Character " ") = 32 := by
  decide

set_option maxRecDepth 10000 in
/-- C6: `legacy_keycode` is total with sentinel 0: a `Character` whose
text is not exactly one byte yields 0; a one-byte `Character` whose
symbol is outside the fixed table yields 0; and every key outside the
named table (here `Key.other` and `Key.Meta`) yields 0. -/
theorem c6_sentinel_zero :
    (∀ s : String, s.utf8ByteSize ≠ 1 → legacy_keycode (Key.Character s) = 0) ∧
      (∀ n : Fin 128, in_fixed_table (Char.ofNat n.val) = false →
        legacy_keycode (Key.Character (String.singleton (Char.ofNat n.val))) = 0) ∧
      (∀ name : String, legacy_keycode (Key.other name) = 0) ∧
      legacy_keycode Key.Meta = 0 := by
  refine ⟨?_, by decide, fun _ => rfl, rfl⟩
  intro s h
  simp [legacy_keycode, h]

/-- C6 witness: the theorem applied at the concrete inputs `"ab"`
(length 2) and `'!'` (one byte, outside the fixed table). -/
theorem c6_sentinel_zero_witness :
    (("ab" : String).utf8ByteSize ≠ 1 ∧
        legacy_keycode (Key.Character "ab") = 0) ∧
      in_fixed_table (Char.ofNat 33) = false ∧
        legacy_keycode (Key.Character (String.singleton (Char.ofNat 33))) = 0 :=
  ⟨⟨by decide, c6_sentinel_zero.1 "ab" (by decide)⟩,
    by decide, c6_sentinel_zero.2.1 ⟨33, by decide⟩ (by decide)⟩

/-- C7: every punctuation symbol in the fixed table maps to its
historical code. -/
theorem c7_punctuation_codes :
    legacy_keycode (Key.Character ";") = 186 ∧
      legacy_keycode (Key.Character ":") = 186 ∧
      legacy_keycode (Key.Character "=") = 187 ∧
      legacy_keycode (Key.Character "+") = 187 ∧
      legacy_keycode (Key.Character ",") = 188 ∧
      legacy_keycode (Key.Character "<") = 188 ∧
      legacy_keycode (Key.Character "-") = 189 ∧
      legacy_keycode (Key.Character "_") = 189 ∧
      legacy_keycode (Key.Character ".") = 190 ∧
      legacy_keycode (Key.Character ">") = 190 ∧
      legacy_keycode (Key.Character "/") = 191 ∧
      legacy_keycode (Key.Character "?") = 191 ∧
      legacy_keycode (Key.Character "`") = 192 ∧
      legacy_keycode (Key.Character "~") = 192 ∧
      legacy_keycode (Key.Character "[") = 219 ∧
      legacy_keycode (Key.Character "\x7b") = 219 ∧
      legacy_keycode (Key.Character "\\") = 220 ∧
      legacy_keycode (Key.Character "|") = 220 ∧
      legacy_keycode (Key.Character "]") = 221 ∧
      legacy_keycode (Key.Character "\x7d") = 221 ∧
      legacy_keycode (Key.Character (String.singleton (Char.ofNat 39))) = 222 ∧
      legacy_keycode (Key.Character "\"") = 222 := by
  decide

/-- C8: for all modifier sets `a`, `b`, `c`: the union contains both of
its arguments, union is commutative and associative, and the empty set
is its two-sided identity. -/
theorem c8_modifiers_algebra :
    ∀ a b c : Modifiers,
      Modifiers.contains (Modifiers.union a b) a = true ∧
        Modifiers.contains (Modifiers.union a b) b = true ∧
        Modifiers.union a b = Modifiers.union b a ∧
        Modifiers.union (Modifiers.union a b) c
          = Modifiers.union a (Modifiers.union b c) ∧
        Modifiers.union a Modifiers.empty = a ∧
        Modifiers.union Modifiers.empty a = a := by
  intro a b c
  obtain ⟨a1, a2, a3, a4⟩ := a
  obtain ⟨b1, b2, b3, b4⟩ := b
  obtain ⟨c1, c2, c3, c4⟩ := c
  revert a1 a2 a3 a4 b1 b2 b3 b4 c1 c2 c3 c4
  decide

/-- C9: `legacy_keycode` is deterministic: structurally equal `Key`
values yield the same numeric result. -/
theorem c9_deterministic :
    ∀ k1 k2 : Key, k1 = k2 → legacy_keycode k1 = legacy_keycode k2 :=
  fun _ _ h => congrArg legacy_keycode h

/-- C9 witness: the theorem applied at the concrete key `Tab`. -/
theorem c9_deterministic_witness :
    Key.Tab = Key.Tab ∧ legacy_keycode Key.Tab = legacy_keycode Key.Tab :=
  ⟨rfl, c9_deterministic Key.Tab Key.Tab rfl⟩

/-- C10: the single-symbol test in `legacy_keycode` measures UTF-8 byte
length: the one-character text `"é"` occupies two bytes, so its
`Character` key maps to 0 even though it is a single character. -/
theorem c10_byte_length_test :
    legacy_keycode (Key.Character "é") = 0 ∧
      ("é" : String).data.length = 1 ∧
      ("é" : String).utf8ByteSize = 2 := by
  decide
